import Mathlib

/-!
# `ResizeBilinear` kernel of the tfjs WebAssembly backend

Shallow embedding of `tfjs-backend-wasm/src/cc/kernels/ResizeBilinear.cc`.

The C function has the signature

    void ResizeBilinear(int x_id, int batch, int old_height, int old_width,
                        int num_channels, int new_height, int new_width,
                        int align_corners, int out_id)

and its whole body is the declaration of one local,

    int effective_input_height =
        (align_corners > 0 && new_height > 1) ? old_height - 1 : old_height;

* C `int` is a 32-bit two's complement integer; values are mathematical
  integers in `[INT_MIN, INT_MAX]` and the subtraction is `i32.sub`, which
  wraps.  Whether the mathematical result leaves the range is tracked by a
  separate predicate.
* Tensor samples are exact rationals.
* A call is a state transformer over the tensor registry with an error
  channel: `Backend → Except KernelError (Unit × Backend)`.
-/

set_option linter.unusedVariables false

namespace tfjs.wasm

/-! ## Machine integers -/

/-- Smallest value of a C `int`. -/
def INT_MIN : Int := -2147483648

/-- Largest value of a C `int`. -/
def INT_MAX : Int := 2147483647

/-- The mathematical integer `v` is representable as a C `int`. -/
def inInt32 (v : Int) : Prop := INT_MIN ≤ v ∧ v ≤ INT_MAX

instance (v : Int) : Decidable (inInt32 v) := by
  unfold inInt32; infer_instance

/-- Two's complement reduction of a mathematical integer to 32 bits. -/
def wrap32 (v : Int) : Int := (v + 2147483648) % 4294967296 - 2147483648

/-- The 32-bit subtraction `a - b` as executed (`i32.sub`). -/
def sub32 (a b : Int) : Int := wrap32 (a - b)

/-- The signed subtraction `a - b` overflows: its mathematical result is not
representable as a C `int`. -/
def sub32_overflows (a b : Int) : Prop := ¬ inInt32 (a - b)

instance (a b : Int) : Decidable (sub32_overflows a b) := by
  unfold sub32_overflows; infer_instance

/-! ## The tensor registry -/

/-- Modelled from the spec: the tensor registry declared in `src/cc/backend.h`,
which is not part of the sources at hand.  The spec describes it as resolving an
opaque numeric identifier to a contiguous row-major buffer of samples; here a
registry is an association list from identifiers to buffers of rationals. -/
structure Backend where
  buffers : List (Int × List ℚ)
deriving DecidableEq

/-- Modelled from the spec: `resolve(id)` of the external tensor registry; `none`
for an identifier that is not registered. -/
def Backend.resolve (m : Backend) (id : Int) : Option (List ℚ) :=
  m.buffers.lookup id

/-- Modelled from the spec: the error a kernel call could report to its caller,
the invalid-argument error of the specification's failure semantics.  The C
source declares no error type and the function returns `void`. -/
inductive KernelError where
  | invalid_argument
deriving DecidableEq

/-! ## The kernel -/

/-- Value of the local `effective_input_height` of `ResizeBilinear`:
`(align_corners > 0 && new_height > 1) ? old_height - 1 : old_height`. -/
def effective_input_height (align_corners new_height old_height : Int) : Int :=
  if align_corners > 0 ∧ new_height > 1 then sub32 old_height 1 else old_height

/-- The evaluation of `effective_input_height` overflows: the branch
`old_height - 1` is taken and that signed subtraction overflows. -/
def effective_input_height_overflows (align_corners new_height old_height : Int) : Prop :=
  align_corners > 0 ∧ new_height > 1 ∧ sub32_overflows old_height 1

instance (a n o : Int) : Decidable (effective_input_height_overflows a n o) := by
  unfold effective_input_height_overflows; infer_instance

/-- The kernel `ResizeBilinear`.  The body declares the local
`effective_input_height` and ends: it calls nothing of the registry, has no
`return` with a value and no failing path. -/
def ResizeBilinear (x_id batch old_height old_width num_channels new_height new_width
    align_corners out_id : Int) (mem : Backend) : Except KernelError (Unit × Backend) :=
  let _effective_input_height : Int :=
    effective_input_height align_corners new_height old_height
  Except.ok ((), mem)

/-- The registry after a call, when the call returned normally. -/
def Backend.after (r : Except KernelError (Unit × Backend)) : Option Backend :=
  match r with
  | Except.ok (_, m) => some m
  | Except.error _ => none

/-- Modelled from the spec: the sample at coordinate `(b, y, x, c)` of a
contiguous row-major buffer of shape `(batch, height, width, channels)`; `none`
outside the buffer. -/
def sample_at (buf : List ℚ) (height width channels b y x c : Int) : Option ℚ :=
  let i : Int := ((b * height + y) * width + x) * channels + c
  if 0 ≤ i then buf.get? i.toNat else none

/-- The sample at `(b, y, x, c)` of the registered tensor `id`, read as a tensor
of shape `(batch, height, width, channels)`. -/
def Backend.sample (m : Backend) (id height width channels b y x c : Int) : Option ℚ :=
  (m.resolve id).bind (fun buf => sample_at buf height width channels b y x c)

/-! ## Reference resampler, following the words of the specification

These definitions are not taken from the C source: they transcribe section 4.1
of the specification (steps 1 to 3) over exact rationals, so that the buffer the
kernel leaves behind can be compared with the values the specification asks
for. -/

/-- Specification, step 1: `align_corners && new > 1 ? old - 1 : old`. -/
def spec_effective_input (align_corners : Bool) (old_size new_size : Int) : Int :=
  if align_corners = true ∧ new_size > 1 then old_size - 1 else old_size

/-- Specification, step 1: `align_corners && new > 1 ? new - 1 : new`. -/
def spec_effective_output (align_corners : Bool) (new_size : Int) : Int :=
  if align_corners = true ∧ new_size > 1 then new_size - 1 else new_size

/-- Specification, step 2: scale = effective input size / effective output size. -/
def spec_scale (align_corners : Bool) (old_size new_size : Int) : ℚ :=
  (spec_effective_input align_corners old_size new_size : ℚ) /
    (spec_effective_output align_corners new_size : ℚ)

/-- Specification, step 3: the fractional source coordinate of output index `i`. -/
def spec_src (align_corners : Bool) (old_size new_size i : Int) : ℚ :=
  (i : ℚ) * spec_scale align_corners old_size new_size

/-- Specification, step 3: `floor(src)` clamped to `[0, old - 1]`. -/
def spec_index0 (align_corners : Bool) (old_size new_size i : Int) : Int :=
  max 0 (min (Int.floor (spec_src align_corners old_size new_size i)) (old_size - 1))

/-- Specification, step 3: `min(index0 + 1, old - 1)`. -/
def spec_index1 (align_corners : Bool) (old_size new_size i : Int) : Int :=
  min (spec_index0 align_corners old_size new_size i + 1) (old_size - 1)

/-- Specification, step 3: the weight `src - index0`, clamped to `[0, 1]`. -/
def spec_weight (align_corners : Bool) (old_size new_size i : Int) : ℚ :=
  max 0 (min (spec_src align_corners old_size new_size i -
    (spec_index0 align_corners old_size new_size i : ℚ)) 1)

/-- Specification, step 3: the four input samples blended into output `(b, y, x, c)`,
in the order `(y0,x0)`, `(y0,x1)`, `(y1,x0)`, `(y1,x1)`; a missing sample reads 0. -/
def spec_four_samples (input : List ℚ) (old_height old_width num_channels new_height
    new_width : Int) (align_corners : Bool) (b y x c : Int) : List ℚ :=
  let y0 := spec_index0 align_corners old_height new_height y
  let y1 := spec_index1 align_corners old_height new_height y
  let x0 := spec_index0 align_corners old_width new_width x
  let x1 := spec_index1 align_corners old_width new_width x
  let at_ (yy xx : Int) : ℚ :=
    (sample_at input old_height old_width num_channels b yy xx c).getD 0
  [at_ y0 x0, at_ y0 x1, at_ y1 x0, at_ y1 x1]

/-- Specification, step 3: the bilinear blend
`top = in(y0,x0)*(1-wx) + in(y0,x1)*wx`, `bottom = in(y1,x0)*(1-wx) + in(y1,x1)*wx`,
`result = top*(1-wy) + bottom*wy`. -/
def spec_output_value (input : List ℚ) (old_height old_width num_channels new_height
    new_width : Int) (align_corners : Bool) (b y x c : Int) : ℚ :=
  let wy := spec_weight align_corners old_height new_height y
  let wx := spec_weight align_corners old_width new_width x
  match spec_four_samples input old_height old_width num_channels new_height new_width
      align_corners b y x c with
  | [i00, i01, i10, i11] =>
    let top := i00 * (1 - wx) + i01 * wx
    let bottom := i10 * (1 - wx) + i11 * wx
    top * (1 - wy) + bottom * wy
  | _ => 0

/-! ## Concrete registries used to run the kernel -/

/-- Registry for a 2x2 to 4x4 upsampling call: tensor 0 is the input
`[[1,2],[3,4]]` of shape (1,2,2,1), tensor 1 the pre-allocated, zero-filled
output of shape (1,4,4,1). -/
def registry_upsample : Backend :=
  { buffers := [(0, [1, 2, 3, 4]), (1, List.replicate 16 0)] }

/-- Registry for a same-size call: tensor 0 is the input `[[1,2],[3,4]]` of shape
(1,2,2,1), tensor 1 the pre-allocated, zero-filled output of the same shape. -/
def registry_same_size : Backend :=
  { buffers := [(0, [1, 2, 3, 4]), (1, [0, 0, 0, 0])] }

/-- Registry of the scenario of the specification: tensor 0 is the input
`[[0,0],[0,1]]` of shape (1,2,2,1), tensor 1 the pre-allocated, zero-filled
output of shape (1,4,4,1). -/
def registry_corner : Backend :=
  { buffers := [(0, [0, 0, 0, 1]), (1, List.replicate 16 0)] }

/-- Registry for a call with `old_height = old_width = 1`: tensor 0 is the input
`[5]` of shape (1,1,1,1), tensor 1 the pre-allocated output of shape (1,2,1,1),
which holds `[1, 2]` from an earlier use. -/
def registry_single_row : Backend :=
  { buffers := [(0, [5]), (1, [1, 2])] }

/-- Registry for a same-size call: tensor 0 is the input `[[5,6],[7,8]]` of shape
(1,2,2,1), tensor 1 the pre-allocated, zero-filled output of the same shape. -/
def registry_range : Backend :=
  { buffers := [(0, [5, 6, 7, 8]), (1, [0, 0, 0, 0])] }

/-- Registry for a call with `batch = 0`: both tensors are empty. -/
def registry_empty_batch : Backend :=
  { buffers := [(0, []), (1, [])] }

/-! ## Auxiliary facts -/

theorem floor_one_half : Int.floor (1 / 2 : ℚ) = 0 := by
  rw [Int.floor_eq_iff]
  norm_num

theorem toNat_two : Int.toNat 2 = 2 := rfl

theorem toNat_three : Int.toNat 3 = 3 := rfl

/-! ## The value of `effective_input_height` -/

/-- C7: for non-negative `int` arguments, `effective_input_height` is
`old_height - 1` when `align_corners` is set (non-zero) and `new_height > 1`, and
is `old_height` otherwise, in particular when `align_corners = 0` or
`new_height = 1`. -/
theorem effective_input_height_nonneg_args (align_corners new_height old_height : Int)
    (ha : 0 ≤ align_corners) (hn : 0 ≤ new_height) (ho : 0 ≤ old_height)
    (hr : inInt32 old_height) :
    (align_corners ≠ 0 ∧ new_height > 1 →
      effective_input_height align_corners new_height old_height = old_height - 1) ∧
    (¬ (align_corners ≠ 0 ∧ new_height > 1) →
      effective_input_height align_corners new_height old_height = old_height) := by
  unfold inInt32 INT_MIN INT_MAX at hr
  unfold effective_input_height sub32 wrap32
  constructor
  · intro h
    rw [if_pos (by omega)]
    omega
  · intro h
    rw [if_neg (by omega)]

theorem effective_input_height_nonneg_args_witness :
    ((0 : Int) ≤ 1 ∧ (0 : Int) ≤ 4 ∧ (0 : Int) ≤ 2 ∧ inInt32 2) ∧
    ((1 : Int) ≠ 0 ∧ (4 : Int) > 1 → effective_input_height 1 4 2 = 2 - 1) ∧
    (¬ ((1 : Int) ≠ 0 ∧ (4 : Int) > 1) → effective_input_height 1 4 2 = 2) :=
  ⟨by decide,
    effective_input_height_nonneg_args 1 4 2 (by decide) (by decide) (by decide) (by decide)⟩

/-- C9: the flag is tested as `align_corners > 0`: for every negative
`align_corners`, whatever `old_height` and `new_height`, `effective_input_height`
is `old_height`, the same value as for `align_corners = 0`, and no subtraction is
evaluated. -/
theorem effective_input_height_negative_flag (align_corners new_height old_height : Int)
    (ha : align_corners < 0) :
    effective_input_height align_corners new_height old_height = old_height ∧
    effective_input_height align_corners new_height old_height =
      effective_input_height 0 new_height old_height ∧
    ¬ effective_input_height_overflows align_corners new_height old_height := by
  unfold effective_input_height effective_input_height_overflows
  refine ⟨?_, ?_, ?_⟩
  · rw [if_neg (by omega)]
  · rw [if_neg (by omega), if_neg (by omega)]
  · omega

theorem effective_input_height_negative_flag_witness :
    ((-1 : Int) < 0) ∧
    (effective_input_height (-1) 4 2 = 2 ∧
      effective_input_height (-1) 4 2 = effective_input_height 0 4 2 ∧
      ¬ effective_input_height_overflows (-1) 4 2) :=
  ⟨by decide, effective_input_height_negative_flag (-1) 4 2 (by decide)⟩

/-- C10: for an `int` `old_height`, if `old_height >= 1` the evaluation of
`effective_input_height` does not overflow, its value lies in `[0, old_height]`,
and it is `0` exactly when `old_height = 1`, `align_corners > 0` and
`new_height > 1`; the subtraction overflows exactly when `old_height = INT_MIN`,
`align_corners > 0` and `new_height > 1`. -/
theorem effective_input_height_range (align_corners new_height old_height : Int)
    (hr : inInt32 old_height) :
    (1 ≤ old_height →
      ¬ effective_input_height_overflows align_corners new_height old_height ∧
      0 ≤ effective_input_height align_corners new_height old_height ∧
      effective_input_height align_corners new_height old_height ≤ old_height ∧
      (effective_input_height align_corners new_height old_height = 0 ↔
        old_height = 1 ∧ align_corners > 0 ∧ new_height > 1)) ∧
    (effective_input_height_overflows align_corners new_height old_height ↔
      old_height = INT_MIN ∧ align_corners > 0 ∧ new_height > 1) := by
  unfold inInt32 at hr
  unfold effective_input_height_overflows sub32_overflows inInt32
  unfold INT_MIN INT_MAX at *
  unfold effective_input_height sub32 wrap32
  constructor
  · intro h1
    by_cases hc : align_corners > 0 ∧ new_height > 1
    · rw [if_pos hc]
      omega
    · rw [if_neg hc]
      omega
  · omega

theorem effective_input_height_range_witness :
    inInt32 1 ∧
    (((1 : Int) ≤ 1 →
      ¬ effective_input_height_overflows 1 2 1 ∧
      0 ≤ effective_input_height 1 2 1 ∧
      effective_input_height 1 2 1 ≤ 1 ∧
      (effective_input_height 1 2 1 = 0 ↔ (1 : Int) = 1 ∧ (1 : Int) > 0 ∧ (2 : Int) > 1)) ∧
    (effective_input_height_overflows 1 2 1 ↔
      (1 : Int) = INT_MIN ∧ (1 : Int) > 0 ∧ (2 : Int) > 1)) :=
  ⟨by decide, effective_input_height_range 1 2 1 (by decide)⟩

/-! ## What a call does to the registry -/

/-- C8: for every argument tuple and every registry, `ResizeBilinear` returns
normally with no value and leaves the registry as it was: every buffer, the input
and the output buffer among them, resolves after the call to what it resolved to
before. -/
theorem ResizeBilinear_frame (x_id batch old_height old_width num_channels new_height
    new_width align_corners out_id : Int) (mem : Backend) :
    ResizeBilinear x_id batch old_height old_width num_channels new_height new_width
        align_corners out_id mem = Except.ok ((), mem) ∧
    ∀ id : Int,
      (Backend.after (ResizeBilinear x_id batch old_height old_width num_channels
        new_height new_width align_corners out_id mem)).map (fun m => m.resolve id) =
      some (mem.resolve id) :=
  ⟨rfl, fun _ => rfl⟩

/-- C5, as the code has it: when some dimension argument is non-positive the
kernel reports nothing, it returns normally with no value, and the registry, the
output buffer included, is left without any write. -/
theorem ResizeBilinear_nonpositive_dimension (x_id batch old_height old_width
    num_channels new_height new_width align_corners out_id : Int) (mem : Backend)
    (h : batch ≤ 0 ∨ old_height ≤ 0 ∨ old_width ≤ 0 ∨ num_channels ≤ 0 ∨
      new_height ≤ 0 ∨ new_width ≤ 0) :
    ResizeBilinear x_id batch old_height old_width num_channels new_height new_width
        align_corners out_id mem = Except.ok ((), mem) ∧
    (Backend.after (ResizeBilinear x_id batch old_height old_width num_channels
        new_height new_width align_corners out_id mem)).map (fun m => m.resolve out_id) =
      some (mem.resolve out_id) :=
  ⟨rfl, rfl⟩

theorem ResizeBilinear_nonpositive_dimension_witness :
    ((0 : Int) ≤ 0 ∨ (1 : Int) ≤ 0 ∨ (1 : Int) ≤ 0 ∨ (1 : Int) ≤ 0 ∨ (1 : Int) ≤ 0 ∨
      (1 : Int) ≤ 0) ∧
    (ResizeBilinear 0 0 1 1 1 1 1 0 1 registry_empty_batch =
        Except.ok ((), registry_empty_batch) ∧
      (Backend.after (ResizeBilinear 0 0 1 1 1 1 1 0 1 registry_empty_batch)).map
          (fun m => m.resolve 1) = some (registry_empty_batch.resolve 1)) :=
  ⟨by decide,
    ResizeBilinear_nonpositive_dimension 0 0 1 1 1 1 1 0 1 registry_empty_batch
      (by decide)⟩

/-- C5, as stated, fails: the call with `batch = 0` has a non-positive dimension
argument, and it reports no error at all, in particular no invalid-argument
error. -/
theorem ResizeBilinear_zero_batch_reports_nothing :
    (0 : Int) ≤ 0 ∧
    ResizeBilinear 0 0 1 1 1 1 1 0 1 registry_empty_batch ≠
      Except.error KernelError.invalid_argument ∧
    ∀ e : KernelError,
      ResizeBilinear 0 0 1 1 1 1 1 0 1 registry_empty_batch ≠ Except.error e := by
  refine ⟨by decide, ?_, ?_⟩
  · intro h
    cases h
  · intro e h
    cases h

/-! ## The buffer a call leaves behind, against the reference resampler -/

/-- C1: the 2x2 to 4x4 call on `[[1,2],[3,4]]` without corner alignment.  The
reference blend at output `(0,1,1,0)` is `5/2`; after the call the output buffer
still holds its sixteen zeros, so that element is `0` and no element was
written. -/
theorem ResizeBilinear_upsample_not_blended :
    spec_output_value [1, 2, 3, 4] 2 2 1 4 4 false 0 1 1 0 = 5 / 2 ∧
    (Backend.after (ResizeBilinear 0 1 2 2 1 4 4 0 1 registry_upsample)).bind
      (fun m => m.sample 1 4 4 1 0 1 1 0) = some 0 ∧
    (Backend.after (ResizeBilinear 0 1 2 2 1 4 4 0 1 registry_upsample)).bind
      (fun m => m.resolve 1) = registry_upsample.resolve 1 := by
  refine ⟨?_, by decide, by decide⟩
  norm_num [spec_output_value, spec_four_samples, spec_weight, spec_index0, spec_index1,
    spec_src, spec_scale, spec_effective_input, spec_effective_output, sample_at,
    floor_one_half, toNat_two, toNat_three]

/-- C2: the same-size call (2x2 to 2x2) with `align_corners = 1` on
`[[1,2],[3,4]]`.  After the call the output buffer is `[0,0,0,0]` and the input
buffer `[1,2,3,4]`: the output does not equal the input. -/
theorem ResizeBilinear_same_size_not_identity :
    (Backend.after (ResizeBilinear 0 1 2 2 1 2 2 1 1 registry_same_size)).bind
      (fun m => m.resolve 1) = some [0, 0, 0, 0] ∧
    (Backend.after (ResizeBilinear 0 1 2 2 1 2 2 1 1 registry_same_size)).bind
      (fun m => m.resolve 0) = some [1, 2, 3, 4] ∧
    (Backend.after (ResizeBilinear 0 1 2 2 1 2 2 1 1 registry_same_size)).bind
      (fun m => m.resolve 1) ≠
    (Backend.after (ResizeBilinear 0 1 2 2 1 2 2 1 1 registry_same_size)).bind
      (fun m => m.resolve 0) := by
  refine ⟨by decide, by decide, by decide⟩

/-- C3: the scenario of the specification, `[[0,0],[0,1]]` resized to 4x4 with
`align_corners = 1`.  The last input sample `(0,1,1,0)` is `1` and the reference
value at output `(0,3,3,0)` is `1`, but after the call output `(0,3,3,0)` is
`0`. -/
theorem ResizeBilinear_last_corner_not_reproduced :
    registry_corner.sample 0 2 2 1 0 1 1 0 = some 1 ∧
    spec_output_value [0, 0, 0, 1] 2 2 1 4 4 true 0 3 3 0 = 1 ∧
    (Backend.after (ResizeBilinear 0 1 2 2 1 4 4 1 1 registry_corner)).bind
      (fun m => m.sample 1 4 4 1 0 3 3 0) = some 0 := by
  refine ⟨by decide, ?_, by decide⟩
  norm_num [spec_output_value, spec_four_samples, spec_weight, spec_index0, spec_index1,
    spec_src, spec_scale, spec_effective_input, spec_effective_output, sample_at,
    toNat_two, toNat_three]

/-- C4: the call with `old_height = 1` (input `[5]`, output shape (1,2,1,1),
output buffer holding `[1, 2]` beforehand).  The reference gives `5` in both
output rows; after the call row 1 holds `2` and row 0 holds `1`, so the rows
differ and neither is the resampled input row. -/
theorem ResizeBilinear_single_row_not_broadcast :
    spec_output_value [5] 1 1 1 2 1 false 0 0 0 0 = 5 ∧
    spec_output_value [5] 1 1 1 2 1 false 0 1 0 0 = 5 ∧
    (Backend.after (ResizeBilinear 0 1 1 1 1 2 1 0 1 registry_single_row)).bind
      (fun m => m.sample 1 2 1 1 0 0 0 0) = some 1 ∧
    (Backend.after (ResizeBilinear 0 1 1 1 1 2 1 0 1 registry_single_row)).bind
      (fun m => m.sample 1 2 1 1 0 1 0 0) = some 2 := by
  refine ⟨?_, ?_, by decide, by decide⟩
  · norm_num [spec_output_value, spec_four_samples, spec_weight, spec_index0,
      spec_index1, spec_src, spec_scale, spec_effective_input, spec_effective_output,
      sample_at]
  · norm_num [spec_output_value, spec_four_samples, spec_weight, spec_index0,
      spec_index1, spec_src, spec_scale, spec_effective_input, spec_effective_output,
      sample_at]

/-- C6: the same-size call with `align_corners = 1` on `[[5,6],[7,8]]`.  The four
samples blended into output `(0,0,0,0)` are `5, 6, 7, 8`; after the call that
output element is `0`, below every one of them, hence below their minimum. -/
theorem ResizeBilinear_output_below_samples :
    spec_four_samples [5, 6, 7, 8] 2 2 1 2 2 true 0 0 0 0 = [5, 6, 7, 8] ∧
    (Backend.after (ResizeBilinear 0 1 2 2 1 2 2 1 1 registry_range)).bind
      (fun m => m.sample 1 2 2 1 0 0 0 0) = some 0 ∧
    ∀ s ∈ spec_four_samples [5, 6, 7, 8] 2 2 1 2 2 true 0 0 0 0, (0 : ℚ) < s := by
  have hs : spec_four_samples [5, 6, 7, 8] 2 2 1 2 2 true 0 0 0 0 = [5, 6, 7, 8] := by
    norm_num [spec_four_samples, spec_index0, spec_index1, spec_src, spec_scale,
      spec_effective_input, spec_effective_output, sample_at, toNat_two, toNat_three]
  refine ⟨hs, by decide, ?_⟩
  rw [hs]
  intro s h
  simp only [List.mem_cons, List.mem_singleton, List.not_mem_nil, or_false] at h
  rcases h with h | h | h | h <;> rw [h] <;> norm_num

end tfjs.wasm
